import Mathlib

/-
Verification of the OpenAI Responses protocol adapter
(src/client/openai_responses.rs): the request-body builder, the
synchronous response extractor, and the streaming event reducer.

The Rust code operates on serde_json::Value; we embed JSON values as the
inductive type Json below, with an executable recursive-descent parser
standing in for serde_json::from_str (covering objects, arrays, strings
with the common escapes, integers, booleans and null, which is the
fragment exercised by this wire protocol).  Objects are association
lists kept in textual order; all claim statements access objects through
key lookup, so key order never matters.
-/

namespace OpenAIResponses

/-- Model of serde_json::Value restricted to the JSON fragment used by the
adapter (numbers are modelled as integers; no arithmetic is ever performed
on them). -/
inductive Json where
  | null
  | bool (b : Bool)
  | num (n : Int)
  | str (s : String)
  | arr (xs : List Json)
  | obj (kvs : List (String × Json))

/-- First value bound to a key in an association-list object. -/
def lookupKey : List (String × Json) → String → Option Json
  | [], _ => none
  | (k, v) :: rest, key => if k = key then some v else lookupKey rest key

/-- Model of Value::get on serde_json: some value for an object that has
the key, none otherwise. -/
def jGetOpt : Json → String → Option Json
  | .obj kvs, key => lookupKey kvs key
  | _, _ => none

/-- Model of serde_json indexing (data["key"]): Null when the key is
missing or the value is not an object. -/
def jGet (j : Json) (key : String) : Json :=
  (jGetOpt j key).getD .null

/-- Model of serde_json Map indexing (map["key"], on the Map returned by
as_object): unlike Value indexing, the Index impl of Map panics when the
key is missing; the panic is modelled as none. -/
def mapIndex (kvs : List (String × Json)) (key : String) : Option Json :=
  lookupKey kvs key

/-- Model of Value::as_str. -/
def Json.asStr : Json → Option String
  | .str s => some s
  | _ => none

/-- Model of Value::as_array. -/
def Json.asArr : Json → Option (List Json)
  | .arr xs => some xs
  | _ => none

/-- Model of Value::as_object. -/
def Json.asObj : Json → Option (List (String × Json))
  | .obj kvs => some kvs
  | _ => none

/-- Model of Value::as_u64 (integers only, as in the model). -/
def Json.asU64 : Json → Option Nat
  | .num n => if 0 ≤ n then some n.toNat else none
  | _ => none

/-- Model of the PartialEq comparison between a Value and a string slice,
as in part["type"] == "output_text". -/
def jEqStr (j : Json) (s : String) : Bool :=
  match j with
  | .str t => t == s
  | _ => false

/-- ASCII whitespace recognizer used by the JSON parser and by the model
of str::trim. -/
def isWsChar (c : Char) : Bool :=
  c = ' ' || c = '\t' || c = '\n' || c = '\r'

/-- Skip leading whitespace. -/
def skipWs : List Char → List Char
  | [] => []
  | c :: cs => if isWsChar c then skipWs cs else c :: cs

/-- Parse the body of a JSON string literal after the opening quote,
handling the common escapes. -/
def parseStrBody : List Char → String → Option (String × List Char)
  | [], _ => none
  | c :: cs, acc =>
    if c = '"' then some (acc, cs)
    else if c = '\\' then
      match cs with
      | [] => none
      | e :: cs2 =>
        if e = '"' then parseStrBody cs2 (acc.push '"')
        else if e = '\\' then parseStrBody cs2 (acc.push '\\')
        else if e = '/' then parseStrBody cs2 (acc.push '/')
        else if e = 'n' then parseStrBody cs2 (acc.push '\n')
        else if e = 't' then parseStrBody cs2 (acc.push '\t')
        else if e = 'r' then parseStrBody cs2 (acc.push '\r')
        else none
    else parseStrBody cs (acc.push c)

/-- Split a leading run of decimal digits from the input. -/
def takeDigits : List Char → List Char × List Char
  | [] => ([], [])
  | c :: cs =>
    if c.isDigit then
      let p := takeDigits cs
      (c :: p.1, p.2)
    else ([], c :: cs)

/-- Decimal digits to a natural number. -/
def digitsToNat (ds : List Char) : Nat :=
  ds.foldl (fun n c => n * 10 + (c.toNat - 48)) 0

mutual

/-- Recursive-descent JSON value parser (fuel-indexed). -/
def parseValue : Nat → List Char → Option (Json × List Char)
  | 0, _ => none
  | fuel + 1, input =>
    match skipWs input with
    | [] => none
    | c :: rest =>
      if c = '"' then
        match parseStrBody rest "" with
        | some (s, r) => some (.str s, r)
        | none => none
      else if c = '{' then
        match skipWs rest with
        | '}' :: r2 => some (.obj [], r2)
        | r2 => parseMembers fuel r2 []
      else if c = '[' then
        match skipWs rest with
        | ']' :: r2 => some (.arr [], r2)
        | r2 => parseElems fuel r2 []
      else if c = 't' then
        match rest with
        | 'r' :: 'u' :: 'e' :: r2 => some (.bool true, r2)
        | _ => none
      else if c = 'f' then
        match rest with
        | 'a' :: 'l' :: 's' :: 'e' :: r2 => some (.bool false, r2)
        | _ => none
      else if c = 'n' then
        match rest with
        | 'u' :: 'l' :: 'l' :: r2 => some (.null, r2)
        | _ => none
      else if c = '-' then
        match takeDigits rest with
        | ([], _) => none
        | (ds, r2) => some (.num (-(digitsToNat ds : Int)), r2)
      else if c.isDigit then
        match takeDigits (c :: rest) with
        | (ds, r2) => some (.num (digitsToNat ds), r2)
      else none

/-- Parse the members of a JSON object after the opening brace. -/
def parseMembers : Nat → List Char → List (String × Json) →
    Option (Json × List Char)
  | 0, _, _ => none
  | fuel + 1, input, acc =>
    match skipWs input with
    | '"' :: rest =>
      match parseStrBody rest "" with
      | none => none
      | some (k, r1) =>
        match skipWs r1 with
        | ':' :: r2 =>
          match parseValue fuel r2 with
          | none => none
          | some (v, r3) =>
            match skipWs r3 with
            | ',' :: r4 => parseMembers fuel r4 (acc ++ [(k, v)])
            | '}' :: r4 => some (.obj (acc ++ [(k, v)]), r4)
            | _ => none
        | _ => none
    | _ => none

/-- Parse the elements of a JSON array after the opening bracket. -/
def parseElems : Nat → List Char → List Json → Option (Json × List Char)
  | 0, _, _ => none
  | fuel + 1, input, acc =>
    match parseValue fuel input with
    | none => none
    | some (v, r1) =>
      match skipWs r1 with
      | ',' :: r2 => parseElems fuel r2 (acc ++ [v])
      | ']' :: r2 => some (.arr (acc ++ [v]), r2)
      | _ => none

end

/-- Model of serde_json::from_str: parse a complete JSON value and demand
that only whitespace remains. -/
def parseJson (s : String) : Option Json :=
  match parseValue (s.data.length + 1) s.data with
  | some (v, rest) => if skipWs rest = [] then some v else none
  | none => none

/-- Escape one character for JSON string output. -/
def escChar (c : Char) : String :=
  if c = '"' then "\\\""
  else if c = '\\' then "\\\\"
  else if c = '\n' then "\\n"
  else if c = '\t' then "\\t"
  else if c = '\r' then "\\r"
  else String.mk [c]

/-- Escape every character of a string for JSON output. -/
def escAll : List Char → String
  | [] => ""
  | c :: cs => escChar c ++ escAll cs

/-- Render a JSON string literal. -/
def renderQuoted (s : String) : String :=
  "\"" ++ escAll s.data ++ "\""

/-- Decimal rendering of a model integer. -/
def intRepr : Int → String
  | .ofNat m => Nat.repr m
  | .negSucc m => "-" ++ Nat.repr (m + 1)

mutual

/-- Model of the Display formatting of a serde_json::Value, used when the
extractor attaches the raw payload to an error message. -/
def renderJson : Json → String
  | .null => "null"
  | .bool b => if b then "true" else "false"
  | .num n => intRepr n
  | .str s => renderQuoted s
  | .arr xs => "[" ++ renderElems xs ++ "]"
  | .obj kvs => "\x7b" ++ renderPairs kvs ++ "\x7d"

/-- Render array elements separated by commas. -/
def renderElems : List Json → String
  | [] => ""
  | [x] => renderJson x
  | x :: y :: xs => renderJson x ++ "," ++ renderElems (y :: xs)

/-- Render object members separated by commas. -/
def renderPairs : List (String × Json) → String
  | [] => ""
  | [(k, v)] => renderQuoted k ++ ":" ++ renderJson v
  | (k, v) :: p :: xs =>
    renderQuoted k ++ ":" ++ renderJson v ++ "," ++ renderPairs (p :: xs)

end

/-
Canonical conversation model.  The defining Rust code for these types
lives in the crate outside the provided sources (only the adapter file is
given), so they are modelled from the spec, shaped exactly as the adapter
file consumes them.
-/

/-- Modelled from the spec: ToolCall (section 3) — a structured request to
invoke a named capability, with JSON-encoded arguments and an optional
correlation id.  ToolCall::new(name, arguments, id) is the plain
constructor. -/
structure ToolCall where
  name : String
  arguments : Json
  id : Option String

/-- Modelled from the spec: the four message roles (section 3). -/
inductive MessageRole where
  | System
  | User
  | Assistant
  | Tool

/-- Modelled from the spec: one structured content part (section 3) —
plain text or an image reference. -/
inductive ContentPart where
  | TextPart (text : String)
  | ImageRef (url : String)

/-- Modelled from the spec: one tool invocation result, correlating a
prior ToolCall with its output, as consumed by the builder
(result.call.id and result.output). -/
structure ToolResult where
  call : ToolCall
  output : Json

/-- Modelled from the spec: the tool-results content payload; the adapter
only reads its tool_results sequence. -/
structure MessageContentToolCalls where
  tool_results : List ToolResult

/-- Modelled from the spec: message content (section 3) — plain text,
structured multi-part content, or tool results. -/
inductive MessageContent where
  | Text (text : String)
  | Parts (parts : List ContentPart)
  | ToolCalls (tc : MessageContentToolCalls)

/-- Modelled from the spec: MessageContent::to_text, the plain-text
rendering of content used by the builder for System and User messages;
Text yields its string, structured parts yield their concatenated text
fragments, tool results yield nothing. -/
def MessageContent.to_text : MessageContent → String
  | .Text text => text
  | .Parts parts =>
    String.join (parts.map fun p =>
      match p with
      | .TextPart t => t
      | .ImageRef _ => "")
  | .ToolCalls _ => ""

/-- Modelled from the spec: one role-tagged conversation turn
(section 3). -/
structure Message where
  role : MessageRole
  content : MessageContent

/-- Modelled from the spec: the builder input (section 4.1) — the
conversation plus sampling parameters, tool definitions (already
serialized to JSON) and the stream flag.  The f64 sampling values are
modelled as integers; the adapter only moves them into the body. -/
structure ChatCompletionsData where
  messages : List Message
  temperature : Option Int
  top_p : Option Int
  functions : Option (List Json)
  stream : Bool

/-- Modelled from the spec: canonical output of one exchange
(section 3). -/
structure ChatCompletionsOutput where
  text : String
  tool_calls : List ToolCall
  id : Option String
  input_tokens : Option Nat
  output_tokens : Option Nat

/-- Modelled from the spec: the model descriptor; the adapter only reads
real_name() for the wire body. -/
structure Model where
  real_name : String

/-
Request body builder: openai_build_responses_body.
-/

/-- The four mutable locals of openai_build_responses_body. -/
structure BuildAcc where
  instructions : String
  input : String
  tool_outputs : List Json
  previous_response_id : Option String

/-- Model of the json! rendering of an Option String (null or string). -/
def optStrJson : Option String → Json
  | some s => .str s
  | none => .null

/-- Does a string start with the continuation marker response_id: ?
Model of str::starts_with on that literal. -/
def startsWithMarker (s : String) : Bool :=
  "response_id:".data.isPrefixOf s.data

/-- Drop the first n characters of a string (model of str::strip_prefix
after a successful starts_with check, by length). -/
def strDrop (s : String) (n : Nat) : String :=
  String.mk (s.data.drop n)

/-- Model of str::trim restricted to ASCII whitespace. -/
def trimStr (s : String) : String :=
  String.mk (((s.data.dropWhile isWsChar).reverse.dropWhile isWsChar).reverse)

/-- One iteration of the message loop of openai_build_responses_body:
System text accumulates into instructions, User text into input; an
Assistant plain-text message either carries the continuation marker
(setting previous_response_id to the trimmed remainder) or accumulates
into input; a Tool message with tool-results content appends
tool_call_id/output records to tool_outputs; everything else is
ignored. -/
def processMessage (acc : BuildAcc) (message : Message) : BuildAcc :=
  match message.role with
  | .System =>
    { acc with instructions := acc.instructions ++ message.content.to_text }
  | .User =>
    { acc with input := acc.input ++ message.content.to_text }
  | .Assistant =>
    match message.content with
    | .Text text =>
      if startsWithMarker text then
        { acc with
          previous_response_id :=
            some (trimStr (strDrop text (String.length "response_id:"))) }
      else
        { acc with input := acc.input ++ text }
    | _ => acc
  | .Tool =>
    match message.content with
    | .ToolCalls tc =>
      { acc with tool_outputs := acc.tool_outputs ++
          tc.tool_results.map (fun result =>
            Json.obj [("tool_call_id", optStrJson result.call.id),
                      ("output", result.output)]) }
    | _ => acc

/-- A conditionally present body field: the empty segment when absent,
a one-entry segment when present (model of the conditional
body[key] = value insertions). -/
def optField (key : String) (v : Option Json) : List (String × Json) :=
  match v with
  | some j => [(key, j)]
  | none => []

/-- The optional tail fields of the wire body, in the insertion order of
the source. -/
def bodyRest (acc : BuildAcc) (data : ChatCompletionsData) :
    List (String × Json) :=
  optField "instructions"
      (if acc.instructions = "" then none
       else some (.str acc.instructions)) ++
    (optField "tool_outputs"
      (if acc.tool_outputs.isEmpty then none
       else some (.arr acc.tool_outputs)) ++
     (optField "previous_response_id"
       (acc.previous_response_id.map Json.str) ++
      (optField "temperature" (data.temperature.map Json.num) ++
       (optField "top_p" (data.top_p.map Json.num) ++
        (optField "stream"
           (if data.stream then some (.bool true) else none) ++
         optField "tools"
           (data.functions.map fun fns =>
             .arr (fns.map fun v =>
               Json.obj [("type", .str "function"),
                         ("function", v)])))))))

/-- Assemble the wire body from the accumulated loop state and the
remaining parameters: the two mandatory fields followed by the optional
tail. -/
def assembleBody (acc : BuildAcc) (data : ChatCompletionsData)
    (model : Model) : Json :=
  .obj (("model", .str model.real_name) ::
        ("input", .str acc.input) :: bodyRest acc data)

/-- Model of openai_build_responses_body: fold the message loop, then
assemble the body. -/
def openai_build_responses_body (data : ChatCompletionsData)
    (model : Model) : Json :=
  assembleBody (data.messages.foldl processMessage ⟨"", "", [], none⟩)
    data model

/-
Synchronous response extractor: openai_extract_responses.
-/

/-- One content part of the reply: an output_text part appends its text;
a tool_code part with id (Value indexing) and function object appends a
ToolCall whose name and args are read by indexing the function Map —
which panics (none) when either key is missing — defaulting to empty
only when the entry is present but not a string, with the argument
string best-effort parsed to JSON (Null on failure). -/
def collectParts (acc : String × List ToolCall) (part : Json) :
    Option (String × List ToolCall) :=
  if jEqStr (jGet part "type") "output_text" then
    match (jGet part "text").asStr with
    | some value => some (acc.1 ++ value, acc.2)
    | none => some acc
  else if jEqStr (jGet part "type") "tool_code" then
    match (jGet part "id").asStr, (jGet part "function").asObj with
    | some id, some function =>
      match mapIndex function "name" with
      | none => none
      | some vn =>
        match mapIndex function "args" with
        | none => none
        | some va =>
          let name := (vn.asStr).getD ""
          let argumentsText := (va.asStr).getD ""
          let arguments := (parseJson argumentsText).getD .null
          some (acc.1, acc.2 ++ [⟨name, arguments, some id⟩])
    | _, _ => some acc
  else some acc

/-- One entry of the output array: walk its content array when present,
propagating a panic. -/
def collectContent (acc : String × List ToolCall) (output : Json) :
    Option (String × List ToolCall) :=
  match (jGet output "content").asArr with
  | some content => content.foldlM collectParts acc
  | none => some acc

/-- The text and tool calls located by the extractor: the walk over
data.response.output[].content[]; none models a panic raised while
indexing a function Map inside the walk. -/
def collectOut (data : Json) : Option (String × List ToolCall) :=
  match jGetOpt data "response" with
  | some response =>
    match (jGet response "output").asArr with
    | some outputs => outputs.foldlM collectContent ("", [])
    | none => some ("", [])
  | none => some ("", [])

/-- Model of openai_extract_responses: walk the reply (none models a
panic during the walk), reject an empty result with the raw payload
attached, otherwise return the canonical output with id and usage
counters. -/
def openai_extract_responses (data : Json) :
    Option (Except String ChatCompletionsOutput) :=
  match collectOut data with
  | none => none
  | some tc =>
    if tc.1 == "" && tc.2.isEmpty then
      some (.error ("Invalid response data: " ++ renderJson data))
    else
      some (.ok ⟨tc.1, tc.2,
           ((jGet data "id").asStr),
           ((jGet (jGet data "usage") "input_tokens").asU64),
           ((jGet (jGet data "usage") "output_tokens").asU64)⟩)

/-
Streaming event reducer: openai_responses_streaming.
-/

/-- One server-sent event message as received by the handler closure
(the name retains the spelling of the source). -/
structure SseMmessage where
  data : String

/-- The mutable locals of openai_responses_streaming: the flushed tool
calls and the in-progress accumulator (item id, function name, raw
argument text). -/
structure StreamState where
  tool_calls : List ToolCall
  current_tool_call_id : String
  current_tool_function_name : String
  current_tool_function_arguments : String

/-- Flush the accumulator into a completed ToolCall: best-effort parse of
the accumulated argument text (Null on failure), tagged with the current
item id. -/
def flushSt (st : StreamState) : StreamState :=
  { st with tool_calls := st.tool_calls ++
      [⟨st.current_tool_function_name,
        (parseJson st.current_tool_function_arguments).getD .null,
        some st.current_tool_call_id⟩] }

/-- The terminator branch: flush only when the accumulated function name
is non-empty. -/
def doneFlush (st : StreamState) : StreamState :=
  if st.current_tool_function_name = "" then st else flushSt st

/-- The item-id transition of the tool-code branch: on an id change,
flush a non-empty accumulator, then reset it to the new id. -/
def procId (st : StreamState) (id : String) : StreamState :=
  if st.current_tool_call_id = id then st
  else
    let st2 := if st.current_tool_function_name = "" then st else flushSt st
    { st2 with
      current_tool_call_id := id,
      current_tool_function_name := "",
      current_tool_function_arguments := "" }

/-- Read the item id of a tool-code delta event; without one the
accumulator is untouched. -/
def procItem (st : StreamState) (data : Json) : StreamState :=
  match (jGet data "item_id").asStr with
  | some id => procId st id
  | none => st

/-- Append the name and argument fragments of the part object of a
tool-code delta event.  The source indexes the part Map directly, so a
part object missing the function_name or args_chunk key panics (none);
an entry that is present but not a string is skipped. -/
def procPart (st : StreamState) (data : Json) : Option StreamState :=
  match (jGet data "part").asObj with
  | some part =>
    match mapIndex part "function_name" with
    | none => none
    | some v1 =>
      let st2 :=
        match v1.asStr with
        | some name =>
          { st with current_tool_function_name :=
              st.current_tool_function_name ++ name }
        | none => st
      match mapIndex part "args_chunk" with
      | none => none
      | some v2 =>
        match v2.asStr with
        | some chunk =>
          some { st2 with current_tool_function_arguments :=
              st2.current_tool_function_arguments ++ chunk }
        | none => some st2
  | none => some st

/-- Dispatch on the parsed event type: a text delta forwards its fragment
to the sink, a tool-code delta updates the accumulator (none models a
panic while indexing its part Map), anything else is ignored. -/
def handleData (st : StreamState) (ts : List String) (data : Json) :
    Option (StreamState × List String) :=
  if (jGet data "type").asStr = some "response.output_text.delta" then
    match (jGet data "delta").asStr with
    | some text => some (st, ts ++ [text])
    | none => some (st, ts)
  else if (jGet data "type").asStr = some "response.tool_code.delta" then
    match procPart (procItem st data) data with
    | none => none
    | some st2 => some (st2, ts)
  else some (st, ts)

/-- The handler closure: the literal DONE sentinel flushes a non-empty
accumulator and stops; any other message must parse as JSON (a parse
failure fails the reduction with an error) and is then dispatched on its
type; the outer none models a panic inside the dispatch. -/
def handle (st : StreamState) (ts : List String) (message : SseMmessage) :
    Option (Except String (StreamState × List String × Bool)) :=
  if message.data = "[DONE]" then some (.ok (doneFlush st, ts, true))
  else
    match parseJson message.data with
    | none => some (.error ("invalid value: " ++ message.data))
    | some data =>
      match handleData st ts data with
      | none => none
      | some r => some (.ok (r.1, r.2, false))

/-- Model of sse_stream: feed messages to the handler until it stops,
the stream ends, an error propagates, or a panic aborts (none). -/
def sse_stream : List SseMmessage → StreamState → List String →
    Option (Except String (StreamState × List String))
  | [], st, ts => some (.ok (st, ts))
  | m :: ms, st, ts =>
    match handle st ts m with
    | none => none
    | some (.error e) => some (.error e)
    | some (.ok (st2, ts2, stop)) =>
      if stop then some (.ok (st2, ts2)) else sse_stream ms st2 ts2

/-- Model of openai_responses_streaming: run the stream from the empty
accumulator, then deliver the flushed tool calls to the sink after the
forwarded text fragments.  The result pairs the text fragments (in
arrival order) with the delivered tool calls (in flush order); none
models a panic aborting the reduction. -/
def openai_responses_streaming (messages : List SseMmessage) :
    Option (Except String (List String × List ToolCall)) :=
  match sse_stream messages ⟨[], "", "", ""⟩ [] with
  | none => none
  | some (.error e) => some (.error e)
  | some (.ok (st, ts)) => some (.ok (ts, st.tool_calls))

/-- The JSON payload of a tool-code delta event carrying an item id and
optional name and argument fragments. -/
def toolDeltaJson (id : String) (name chunk : Option String) : Json :=
  .obj [("type", .str "response.tool_code.delta"),
        ("item_id", .str id),
        ("part", .obj
          ((match name with
            | some n => [("function_name", Json.str n)]
            | none => []) ++
           (match chunk with
            | some c => [("args_chunk", Json.str c)]
            | none => [])))]

/-
Specification-side projections of the builder loop: the per-message
contributions to the input and instructions strings, and the marker
predicate.
-/

/-- The text a message contributes to the input string: User text, and
Assistant plain text not carrying the continuation marker. -/
def inputText (m : Message) : String :=
  match m.role with
  | .User => m.content.to_text
  | .Assistant =>
    match m.content with
    | .Text text => if startsWithMarker text then "" else text
    | _ => ""
  | _ => ""

/-- The text a message contributes to the instructions string: System
text only. -/
def sysText (m : Message) : String :=
  match m.role with
  | .System => m.content.to_text
  | _ => ""

/-- The input string of a conversation: in-order concatenation of the
per-message input contributions. -/
def inputJoin (ms : List Message) : String :=
  ms.foldl (fun s m => s ++ inputText m) ""

/-- The instructions string of a conversation: in-order concatenation of
the System texts. -/
def sysJoin (ms : List Message) : String :=
  ms.foldl (fun s m => s ++ sysText m) ""

/-- Is this an Assistant plain-text message carrying the continuation
marker? -/
def isMarkerMsg (m : Message) : Bool :=
  match m.role, m.content with
  | .Assistant, .Text text => startsWithMarker text
  | _, _ => false

/-- Is the content a plain-text payload? -/
def MessageContent.isPlainText : MessageContent → Bool
  | .Text _ => true
  | _ => false

/-
Helper lemmas.
-/

theorem str_append_empty (s : String) : s ++ "" = s := by
  cases s with
  | mk d => exact congrArg String.mk (List.append_nil d)

theorem lookupKey_optField_skip (key k : String) (v : Option Json)
    (rest : List (String × Json)) (h : k ≠ key) :
    lookupKey (optField k v ++ rest) key = lookupKey rest key := by
  cases v with
  | none => rfl
  | some j =>
    show lookupKey ((k, j) :: rest) key = lookupKey rest key
    simp [lookupKey, h]

theorem lookupKey_optField_hit (k : String) (v : Option Json)
    (rest : List (String × Json)) :
    lookupKey (optField k v ++ rest) k =
      (match v with
       | some j => some j
       | none => lookupKey rest k) := by
  cases v with
  | none => rfl
  | some j =>
    show lookupKey ((k, j) :: rest) k = some j
    simp [lookupKey]

theorem lookupKey_optField_ne (key k : String) (v : Option Json)
    (h : k ≠ key) : lookupKey (optField k v) key = none := by
  cases v with
  | none => rfl
  | some j => simp [optField, lookupKey, h]

theorem jGetOpt_assembleBody (acc : BuildAcc) (data : ChatCompletionsData)
    (model : Model) (key : String) (h1 : ("model" : String) ≠ key)
    (h2 : ("input" : String) ≠ key) :
    jGetOpt (assembleBody acc data model) key =
      lookupKey (bodyRest acc data) key := by
  show lookupKey (("model", Json.str model.real_name) ::
    ("input", Json.str acc.input) :: bodyRest acc data) key = _
  simp [lookupKey, h1, h2]

theorem body_input (acc : BuildAcc) (data : ChatCompletionsData)
    (model : Model) :
    jGetOpt (assembleBody acc data model) "input" =
      some (.str acc.input) := rfl

theorem body_instructions (acc : BuildAcc) (data : ChatCompletionsData)
    (model : Model) :
    jGetOpt (assembleBody acc data model) "instructions" =
      (if acc.instructions = "" then none
       else some (.str acc.instructions)) := by
  rw [jGetOpt_assembleBody _ _ _ _ (by decide) (by decide)]
  unfold bodyRest
  rw [lookupKey_optField_hit]
  by_cases h : acc.instructions = ""
  · rw [if_pos h]
    show lookupKey _ "instructions" = none
    rw [lookupKey_optField_skip _ _ _ _ (by decide),
        lookupKey_optField_skip _ _ _ _ (by decide),
        lookupKey_optField_skip _ _ _ _ (by decide),
        lookupKey_optField_skip _ _ _ _ (by decide),
        lookupKey_optField_skip _ _ _ _ (by decide),
        lookupKey_optField_ne _ _ _ (by decide)]
  · rw [if_neg h]

theorem body_prev (acc : BuildAcc) (data : ChatCompletionsData)
    (model : Model) :
    jGetOpt (assembleBody acc data model) "previous_response_id" =
      acc.previous_response_id.map Json.str := by
  rw [jGetOpt_assembleBody _ _ _ _ (by decide) (by decide)]
  unfold bodyRest
  rw [lookupKey_optField_skip _ _ _ _ (by decide),
      lookupKey_optField_skip _ _ _ _ (by decide),
      lookupKey_optField_hit]
  cases acc.previous_response_id with
  | some id => rfl
  | none =>
    show lookupKey _ "previous_response_id" = none
    rw [lookupKey_optField_skip _ _ _ _ (by decide),
        lookupKey_optField_skip _ _ _ _ (by decide),
        lookupKey_optField_skip _ _ _ _ (by decide),
        lookupKey_optField_ne _ _ _ (by decide)]

theorem processMessage_input (acc : BuildAcc) (m : Message) :
    (processMessage acc m).input = acc.input ++ inputText m := by
  cases m with
  | mk role content =>
    cases role with
    | System => simp [processMessage, inputText, str_append_empty]
    | User => rfl
    | Assistant =>
      cases content with
      | Text text =>
        by_cases h : startsWithMarker text
        · simp [processMessage, inputText, h, str_append_empty]
        · simp [processMessage, inputText, h]
      | Parts parts => simp [processMessage, inputText, str_append_empty]
      | ToolCalls tc => simp [processMessage, inputText, str_append_empty]
    | Tool =>
      cases content <;> simp [processMessage, inputText, str_append_empty]

theorem processMessage_instructions (acc : BuildAcc) (m : Message) :
    (processMessage acc m).instructions = acc.instructions ++ sysText m := by
  cases m with
  | mk role content =>
    cases role with
    | System => rfl
    | User => simp [processMessage, sysText, str_append_empty]
    | Assistant =>
      cases content with
      | Text text =>
        by_cases h : startsWithMarker text
        · simp [processMessage, sysText, h, str_append_empty]
        · simp [processMessage, sysText, h, str_append_empty]
      | Parts parts => simp [processMessage, sysText, str_append_empty]
      | ToolCalls tc => simp [processMessage, sysText, str_append_empty]
    | Tool =>
      cases content <;> simp [processMessage, sysText, str_append_empty]

theorem processMessage_prev (acc : BuildAcc) (m : Message)
    (h : isMarkerMsg m = false) :
    (processMessage acc m).previous_response_id =
      acc.previous_response_id := by
  cases m with
  | mk role content =>
    cases role with
    | System => rfl
    | User => rfl
    | Assistant =>
      cases content with
      | Text text =>
        have hm : startsWithMarker text = false := by
          simpa [isMarkerMsg] using h
        simp [processMessage, hm]
      | Parts parts => rfl
      | ToolCalls tc => rfl
    | Tool => cases content <;> rfl

theorem foldl_input (ms : List Message) :
    ∀ acc : BuildAcc, (ms.foldl processMessage acc).input =
      ms.foldl (fun s m => s ++ inputText m) acc.input := by
  induction ms with
  | nil => intro acc; rfl
  | cons m rest ih =>
    intro acc
    show (rest.foldl processMessage (processMessage acc m)).input = _
    rw [ih, processMessage_input]
    rfl

theorem foldl_instructions (ms : List Message) :
    ∀ acc : BuildAcc, (ms.foldl processMessage acc).instructions =
      ms.foldl (fun s m => s ++ sysText m) acc.instructions := by
  induction ms with
  | nil => intro acc; rfl
  | cons m rest ih =>
    intro acc
    show (rest.foldl processMessage (processMessage acc m)).instructions = _
    rw [ih, processMessage_instructions]
    rfl

theorem foldl_prev (ms : List Message) :
    ∀ acc : BuildAcc, (∀ m ∈ ms, isMarkerMsg m = false) →
      (ms.foldl processMessage acc).previous_response_id =
        acc.previous_response_id := by
  induction ms with
  | nil => intro acc _; rfl
  | cons m rest ih =>
    intro acc h
    show (rest.foldl processMessage (processMessage acc m)).previous_response_id = _
    rw [ih _ (fun x hx => h x (List.mem_cons_of_mem _ hx)),
        processMessage_prev _ _ (h m (List.mem_cons_self _ _))]

theorem sse_stream_nil (st : StreamState) (ts : List String) :
    sse_stream [] st ts = some (.ok (st, ts)) := rfl

theorem sse_stream_done (st : StreamState) (ts : List String)
    (ms : List SseMmessage) :
    sse_stream (⟨"[DONE]"⟩ :: ms) st ts =
      some (.ok (doneFlush st, ts)) := rfl

theorem procId_flush (st : StreamState) (id : String)
    (hid : st.current_tool_call_id ≠ id)
    (hnm : st.current_tool_function_name ≠ "") :
    procId st id =
      { flushSt st with
        current_tool_call_id := id,
        current_tool_function_name := "",
        current_tool_function_arguments := "" } := by
  unfold procId
  rw [if_neg hid, if_neg hnm]

theorem doneFlush_flush (st : StreamState)
    (hnm : st.current_tool_function_name ≠ "") :
    doneFlush st = flushSt st := by
  unfold doneFlush
  rw [if_neg hnm]

theorem handleData_toolDelta (st : StreamState) (ts : List String)
    (id : String) (nm ch : Option String) :
    handleData st ts (toolDeltaJson id nm ch) =
      (match procPart (procItem st (toolDeltaJson id nm ch))
          (toolDeltaJson id nm ch) with
       | none => none
       | some st2 => some (st2, ts)) := rfl

theorem procItem_toolDelta (st : StreamState) (id : String)
    (nm ch : Option String) :
    procItem st (toolDeltaJson id nm ch) = procId st id := rfl

theorem procPart_toolDelta_both (st : StreamState) (id na ga : String) :
    procPart st (toolDeltaJson id (some na) (some ga)) =
      some { st with
        current_tool_function_name :=
          st.current_tool_function_name ++ na,
        current_tool_function_arguments :=
          st.current_tool_function_arguments ++ ga } := rfl

theorem str_empty_append (s : String) : "" ++ s = s := by
  cases s with
  | mk d => rfl

theorem procId_fresh (st : StreamState) (id : String)
    (hid : st.current_tool_call_id ≠ id)
    (hnm : st.current_tool_function_name = "") :
    procId st id = ⟨st.tool_calls, id, "", ""⟩ := by
  unfold procId
  rw [if_neg hid, if_pos hnm]

theorem sse_stream_cons2 (e : String) (ms : List SseMmessage)
    (st st2 : StreamState) (ts ts2 : List String) (data : Json)
    (hp : parseJson e = some data)
    (hh : handleData st ts data = some (st2, ts2)) :
    sse_stream (⟨e⟩ :: ms) st ts = sse_stream ms st2 ts2 := by
  have hne : e ≠ "[DONE]" := by
    intro h
    rw [h, show parseJson "[DONE]" = none from rfl] at hp
    exact Option.noConfusion hp
  have hhh : handle st ts ⟨e⟩ = some (.ok (st2, ts2, false)) := by
    simp only [handle]
    rw [if_neg hne, hp]
    show (match handleData st ts data with
          | none => none
          | some r => some (Except.ok (r.1, r.2, false))) =
      some (Except.ok (st2, ts2, false))
    rw [hh]
  simp only [sse_stream]
  rw [hhh]
  rfl

theorem handleData_fresh (ts : List String) (id na ga : String)
    (hid : ("" : String) ≠ id) :
    handleData ⟨[], "", "", ""⟩ ts (toolDeltaJson id (some na) (some ga)) =
      some (⟨[], id, na, ga⟩, ts) := by
  rw [handleData_toolDelta, procItem_toolDelta,
      procId_fresh ⟨[], "", "", ""⟩ id hid rfl,
      procPart_toolDelta_both]
  show some ((⟨[], id, "" ++ na, "" ++ ga⟩ : StreamState), ts) =
    some ((⟨[], id, na, ga⟩ : StreamState), ts)
  rw [str_empty_append, str_empty_append]

theorem handleData_next (st : StreamState) (ts : List String)
    (id nb gb : String)
    (hid : st.current_tool_call_id ≠ id)
    (hnm : st.current_tool_function_name ≠ "") :
    handleData st ts (toolDeltaJson id (some nb) (some gb)) =
      some (⟨st.tool_calls ++
          [⟨st.current_tool_function_name,
            (parseJson st.current_tool_function_arguments).getD .null,
            some st.current_tool_call_id⟩],
        id, nb, gb⟩, ts) := by
  rw [handleData_toolDelta, procItem_toolDelta,
      procId_flush st id hid hnm,
      procPart_toolDelta_both]
  show some ((⟨st.tool_calls ++
      [⟨st.current_tool_function_name,
        (parseJson st.current_tool_function_arguments).getD .null,
        some st.current_tool_call_id⟩],
      id, "" ++ nb, "" ++ gb⟩ : StreamState), ts) =
    some ((⟨st.tool_calls ++
      [⟨st.current_tool_function_name,
        (parseJson st.current_tool_function_arguments).getD .null,
        some st.current_tool_call_id⟩],
      id, nb, gb⟩ : StreamState), ts)
  rw [str_empty_append, str_empty_append]

/-
Claim theorems: streaming event reducer.
-/

/-- Claim C1 (code bug): the claimed event sequence — tool-code delta
events for item a carrying a name fragment without an argument fragment
(and vice versa), then the DONE terminator — makes the real code panic
on the very first event, because the handler indexes the part Map at the
missing args_chunk key; the reduction aborts (none) instead of
completing successfully and emitting the ToolCall.  The spec (append any
fragment present in the event) is the clear intent; the Map indexing is
the slip. -/
theorem claim_C1_fragment_events_panic :
    openai_responses_streaming
      [⟨"\x7b\"type\":\"response.tool_code.delta\",\"item_id\":\"a\",\"part\":\x7b\"function_name\":\"get_\"\x7d\x7d"⟩,
       ⟨"\x7b\"type\":\"response.tool_code.delta\",\"item_id\":\"a\",\"part\":\x7b\"function_name\":\"weather\"\x7d\x7d"⟩,
       ⟨"\x7b\"type\":\"response.tool_code.delta\",\"item_id\":\"a\",\"part\":\x7b\"args_chunk\":\"\x7b\\\"city\\\":\"\x7d\x7d"⟩,
       ⟨"\x7b\"type\":\"response.tool_code.delta\",\"item_id\":\"a\",\"part\":\x7b\"args_chunk\":\"\\\"sf\\\"\x7d\"\x7d\x7d"⟩,
       ⟨"[DONE]"⟩] = none := rfl

/-- Claim C8: a complete tool-call item a followed immediately by a
complete tool-call item b followed by the terminator yields exactly two
ToolCalls, delivered in the order a then b (flush order equals the
item-id transition order). -/
theorem claim_C8_multi_tool_order (e1 e2 : String) (na ga nb gb : String)
    (hna : na ≠ "") (hnb : nb ≠ "")
    (h1 : parseJson e1 = some (toolDeltaJson "a" (some na) (some ga)))
    (h2 : parseJson e2 = some (toolDeltaJson "b" (some nb) (some gb))) :
    openai_responses_streaming [⟨e1⟩, ⟨e2⟩, ⟨"[DONE]"⟩] =
      some (.ok ([], [⟨na, (parseJson ga).getD .null, some "a"⟩,
                      ⟨nb, (parseJson gb).getD .null, some "b"⟩])) := by
  have s1 : handleData ⟨[], "", "", ""⟩ []
      (toolDeltaJson "a" (some na) (some ga)) =
      some (⟨[], "a", na, ga⟩, []) :=
    handleData_fresh [] "a" na ga (by decide)
  have s2 : handleData ⟨[], "a", na, ga⟩ []
      (toolDeltaJson "b" (some nb) (some gb)) =
      some (⟨[⟨na, (parseJson ga).getD .null, some "a"⟩], "b", nb, gb⟩,
        []) :=
    handleData_next ⟨[], "a", na, ga⟩ [] "b" nb gb
      (show ("a" : String) ≠ "b" from by decide) hna
  unfold openai_responses_streaming
  rw [sse_stream_cons2 _ _ _ _ _ _ _ h1 s1,
      sse_stream_cons2 _ _ _ _ _ _ _ h2 s2,
      sse_stream_done,
      doneFlush_flush
        ⟨[⟨na, (parseJson ga).getD .null, some "a"⟩], "b", nb, gb⟩ hnb]
  rfl

/-- Witness for claim C8 at the concrete wire event strings. -/
theorem claim_C8_witness :
    openai_responses_streaming
      [⟨"\x7b\"type\":\"response.tool_code.delta\",\"item_id\":\"a\",\"part\":\x7b\"function_name\":\"fa\",\"args_chunk\":\"\x7b\x7d\"\x7d\x7d"⟩,
       ⟨"\x7b\"type\":\"response.tool_code.delta\",\"item_id\":\"b\",\"part\":\x7b\"function_name\":\"fb\",\"args_chunk\":\"\x7b\x7d\"\x7d\x7d"⟩,
       ⟨"[DONE]"⟩] =
      some (.ok ([], [⟨"fa", .obj [], some "a"⟩,
                      ⟨"fb", .obj [], some "b"⟩])) :=
  claim_C8_multi_tool_order _ _ "fa" "\x7b\x7d" "fb" "\x7b\x7d"
    (by decide) (by decide) rfl rfl

/-- Counterexample to claim C9: a stream that ends without the DONE
terminator while the accumulator holds the non-empty function name
get_weather delivers no tool call at all — the pending accumulator entry
is not flushed, contrary to the claim. -/
theorem claim_C9_counterexample :
    openai_responses_streaming
      [⟨"\x7b\"type\":\"response.tool_code.delta\",\"item_id\":\"a\",\"part\":\x7b\"function_name\":\"get_weather\",\"args_chunk\":\"\x7b\x7d\"\x7d\x7d"⟩] =
      some (.ok ([], [])) := rfl

/-- Claim C9 (amended): a stream that ends without the DONE terminator is
treated as an ordinary stream end (the reduction returns successfully),
and the tool calls already flushed at item-id transitions are delivered,
but a pending accumulator entry — even one holding a non-empty function
name — is discarded rather than flushed. -/
theorem claim_C9_no_terminator (e1 e2 : String) (na ga nb gb : String)
    (hna : na ≠ "") (_hnb : nb ≠ "")
    (h1 : parseJson e1 = some (toolDeltaJson "a" (some na) (some ga)))
    (h2 : parseJson e2 = some (toolDeltaJson "b" (some nb) (some gb))) :
    openai_responses_streaming [⟨e1⟩, ⟨e2⟩] =
      some (.ok ([], [⟨na, (parseJson ga).getD .null, some "a"⟩])) := by
  have s1 : handleData ⟨[], "", "", ""⟩ []
      (toolDeltaJson "a" (some na) (some ga)) =
      some (⟨[], "a", na, ga⟩, []) :=
    handleData_fresh [] "a" na ga (by decide)
  have s2 : handleData ⟨[], "a", na, ga⟩ []
      (toolDeltaJson "b" (some nb) (some gb)) =
      some (⟨[⟨na, (parseJson ga).getD .null, some "a"⟩], "b", nb, gb⟩,
        []) :=
    handleData_next ⟨[], "a", na, ga⟩ [] "b" nb gb
      (show ("a" : String) ≠ "b" from by decide) hna
  unfold openai_responses_streaming
  rw [sse_stream_cons2 _ _ _ _ _ _ _ h1 s1,
      sse_stream_cons2 _ _ _ _ _ _ _ h2 s2,
      sse_stream_nil]

/-- Witness for the amended claim C9 at the concrete wire event
strings. -/
theorem claim_C9_witness :
    openai_responses_streaming
      [⟨"\x7b\"type\":\"response.tool_code.delta\",\"item_id\":\"a\",\"part\":\x7b\"function_name\":\"ga\",\"args_chunk\":\"\x7b\x7d\"\x7d\x7d"⟩,
       ⟨"\x7b\"type\":\"response.tool_code.delta\",\"item_id\":\"b\",\"part\":\x7b\"function_name\":\"gb\",\"args_chunk\":\"\x7b\x7d\"\x7d\x7d"⟩] =
      some (.ok ([], [⟨"ga", .obj [], some "a"⟩])) :=
  claim_C9_no_terminator _ _ "ga" "\x7b\x7d" "gb" "\x7b\x7d"
    (by decide) (by decide) rfl rfl

/-
Claim theorems: request body builder.
-/

theorem processMessage_nontext (acc : BuildAcc) (content : MessageContent)
    (h : content.isPlainText = false) :
    processMessage acc ⟨.Assistant, content⟩ = acc := by
  cases content with
  | Text t => exact absurd h (by simp [MessageContent.isPlainText])
  | Parts p => rfl
  | ToolCalls tc => rfl

theorem inputJoin_append_cons (pre suf : List Message) (m : Message)
    (hm : inputText m = "") :
    inputJoin (pre ++ m :: suf) = inputJoin (pre ++ suf) := by
  unfold inputJoin
  rw [List.foldl_append, List.foldl_append, List.foldl_cons]
  simp only [hm, str_append_empty]

/-- Counterexample to claim C2: a two-message conversation is rendered
with input as a single concatenated string, not as an array of role and
content objects. -/
theorem claim_C2_counterexample :
    (jGetOpt (openai_build_responses_body
        ⟨[⟨.User, .Text "hi "⟩, ⟨.User, .Text "there"⟩],
         none, none, none, false⟩ ⟨"gpt"⟩) "input").bind Json.asArr =
      none ∧
    jGetOpt (openai_build_responses_body
        ⟨[⟨.User, .Text "hi "⟩, ⟨.User, .Text "there"⟩],
         none, none, none, false⟩ ⟨"gpt"⟩) "input" =
      some (.str "hi there") := ⟨rfl, rfl⟩

/-- Claim C2 (amended): for every conversation, the input field of the
built request is a single JSON string — the in-order concatenation of
the per-message text contributions (User text, and Assistant plain text
not carrying the continuation marker) — never an array of role and
content objects. -/
theorem claim_C2_input_is_string (data : ChatCompletionsData)
    (model : Model) :
    jGetOpt (openai_build_responses_body data model) "input" =
      some (.str (inputJoin data.messages)) := by
  unfold openai_build_responses_body
  rw [body_input, foldl_input]
  rfl

/-- Counterexample to claim C3: when a later Assistant marker message
follows, a conversation containing the marker text resp_123 yields
previous_response_id resp_456, not resp_123. -/
theorem claim_C3_counterexample :
    jGetOpt (openai_build_responses_body
        ⟨[⟨.Assistant, .Text "response_id:resp_123"⟩,
          ⟨.Assistant, .Text "response_id:resp_456"⟩,
          ⟨.User, .Text "hi"⟩], none, none, none, false⟩ ⟨"gpt"⟩)
      "previous_response_id" = some (.str "resp_456") ∧
    ("resp_456" : String) ≠ "resp_123" := ⟨rfl, by decide⟩

/-- Claim C3 (amended): when the marker message carrying resp_123 is the
last marker-bearing Assistant message of the conversation, the built
body carries previous_response_id resp_123, and the marker text
contributes nothing to the rendered input (the input of the conversation
equals the input of the conversation without the marker message). -/
theorem claim_C3_continuation (pre suf : List Message)
    (temp topp : Option Int) (fns : Option (List Json)) (stream : Bool)
    (model : Model) (h : ∀ m ∈ suf, isMarkerMsg m = false) :
    jGetOpt (openai_build_responses_body
        ⟨pre ++ ⟨.Assistant, .Text "response_id:resp_123"⟩ :: suf,
         temp, topp, fns, stream⟩ model) "previous_response_id" =
      some (.str "resp_123") ∧
    jGetOpt (openai_build_responses_body
        ⟨pre ++ ⟨.Assistant, .Text "response_id:resp_123"⟩ :: suf,
         temp, topp, fns, stream⟩ model) "input" =
      jGetOpt (openai_build_responses_body
        ⟨pre ++ suf, temp, topp, fns, stream⟩ model) "input" := by
  constructor
  · unfold openai_build_responses_body
    rw [body_prev, List.foldl_append, List.foldl_cons,
        foldl_prev _ _ h,
        show (processMessage
            (List.foldl processMessage ⟨"", "", [], none⟩ pre)
            ⟨.Assistant, .Text "response_id:resp_123"⟩).previous_response_id =
          some "resp_123" from rfl]
    rfl
  · unfold openai_build_responses_body
    rw [body_input, body_input, foldl_input, foldl_input]
    show some (Json.str (inputJoin
        (pre ++ ⟨.Assistant, .Text "response_id:resp_123"⟩ :: suf))) =
      some (Json.str (inputJoin (pre ++ suf)))
    rw [inputJoin_append_cons pre suf
        ⟨.Assistant, .Text "response_id:resp_123"⟩ rfl]

/-- Witness for the amended claim C3 at a concrete conversation. -/
theorem claim_C3_witness :
    jGetOpt (openai_build_responses_body
        ⟨[⟨.Assistant, .Text "response_id:resp_123"⟩, ⟨.User, .Text "hi"⟩],
         none, none, none, false⟩ ⟨"gpt"⟩) "previous_response_id" =
      some (.str "resp_123") :=
  (claim_C3_continuation [] [⟨.User, .Text "hi"⟩] none none none false
    ⟨"gpt"⟩ (by decide)).1

/-- Counterexample to claim C6: a one-message text-only conversation
whose message has System role yields input equal to the empty string,
not to the message text. -/
theorem claim_C6_counterexample :
    jGetOpt (openai_build_responses_body
        ⟨[⟨.System, .Text "hi"⟩], none, none, none, false⟩ ⟨"gpt"⟩)
      "input" = some (.str "") ∧ ("hi" : String) ≠ "" := ⟨rfl, by decide⟩

/-- Claim C6 (amended): for every one-message, text-only conversation
whose message has User role, the built request renders input as a bare
JSON string equal to that message text, not a wrapped array. -/
theorem claim_C6_single_message (t : String) (temp topp : Option Int)
    (fns : Option (List Json)) (stream : Bool) (model : Model) :
    jGetOpt (openai_build_responses_body
        ⟨[⟨.User, .Text t⟩], temp, topp, fns, stream⟩ model) "input" =
      some (.str t) := by
  unfold openai_build_responses_body
  rw [body_input,
      show (List.foldl processMessage ⟨"", "", [], none⟩
          [⟨.User, .Text t⟩]).input = "" ++ t from rfl,
      str_empty_append]

/-- Counterexample to claim C7: with two System messages A and B the
built body carries instructions AB — the concatenation — not the text of
the most recent System message only. -/
theorem claim_C7_counterexample :
    jGetOpt (openai_build_responses_body
        ⟨[⟨.System, .Text "A"⟩, ⟨.System, .Text "B"⟩, ⟨.User, .Text "x"⟩],
         none, none, none, false⟩ ⟨"gpt"⟩) "instructions" =
      some (.str "AB") ∧ ("AB" : String) ≠ "B" := ⟨rfl, by decide⟩

/-- Claim C7 (amended): the instructions field of the built request is
the in-order concatenation of the texts of all System messages — present
exactly when that concatenation is non-empty — rather than the text of
the most recent System message only. -/
theorem claim_C7_instructions_concat (data : ChatCompletionsData)
    (model : Model) :
    jGetOpt (openai_build_responses_body data model) "instructions" =
      (if sysJoin data.messages = "" then none
       else some (.str (sysJoin data.messages))) := by
  unfold openai_build_responses_body
  rw [body_instructions, foldl_instructions]
  rfl

/-- Claim C10: an Assistant message whose content is not plain text
contributes nothing to the built request: the body built from the
conversation with it equals the body built from the conversation without
it. -/
theorem claim_C10_nontext_assistant_ignored (pre suf : List Message)
    (content : MessageContent) (temp topp : Option Int)
    (fns : Option (List Json)) (stream : Bool) (model : Model)
    (h : content.isPlainText = false) :
    openai_build_responses_body
        ⟨pre ++ ⟨.Assistant, content⟩ :: suf, temp, topp, fns, stream⟩
        model =
      openai_build_responses_body
        ⟨pre ++ suf, temp, topp, fns, stream⟩ model := by
  unfold openai_build_responses_body
  rw [List.foldl_append, List.foldl_cons, processMessage_nontext _ _ h,
      ← List.foldl_append]
  rfl

/-- Witness for claim C10 at a concrete conversation with a structured
Assistant message. -/
theorem claim_C10_witness :
    openai_build_responses_body
        ⟨[⟨.User, .Text "q"⟩, ⟨.Assistant, .Parts []⟩, ⟨.User, .Text "r"⟩],
         none, none, none, false⟩ ⟨"gpt"⟩ =
      openai_build_responses_body
        ⟨[⟨.User, .Text "q"⟩, ⟨.User, .Text "r"⟩],
         none, none, none, false⟩ ⟨"gpt"⟩ :=
  claim_C10_nontext_assistant_ignored [⟨.User, .Text "q"⟩]
    [⟨.User, .Text "r"⟩] (.Parts []) none none none false ⟨"gpt"⟩ rfl

/-
Claim theorems: synchronous response extractor.
-/

/-- Claim C4: a well-formed reply whose walk completes and locates no
text and no tool calls fails with the invalid-response error carrying
the raw payload; a reply whose walk completes with non-empty text and no
tool calls succeeds with tool_calls empty.  (A walk with an empty
tool-call list never reaches the panicking function-Map indexing, so
the completed-walk hypothesis is exactly the domain of the claim.) -/
theorem claim_C4_empty_rejection (data : Json) :
    (collectOut data = some ("", []) →
      openai_extract_responses data =
        some (.error ("Invalid response data: " ++ renderJson data))) ∧
    (∀ p : String × List ToolCall, collectOut data = some p →
      p.1 ≠ "" → p.2 = [] →
      openai_extract_responses data =
        some (.ok ⟨p.1, [], ((jGet data "id").asStr),
             ((jGet (jGet data "usage") "input_tokens").asU64),
             ((jGet (jGet data "usage") "output_tokens").asU64)⟩)) := by
  constructor
  · intro h
    simp only [openai_extract_responses, h]
    rfl
  · intro p h ht h2
    have hbe : (p.1 == "") = false := beq_eq_false_iff_ne.mpr ht
    have hcn : ¬((p.1 == "" && p.2.isEmpty) = true) := by
      rw [hbe, Bool.false_and]; exact Bool.false_ne_true
    simp only [openai_extract_responses, h]
    rw [if_neg hcn, h2]

/-- Witness for claim C4: the empty object is rejected with the payload
attached, and a text-only reply succeeds with no tool calls. -/
theorem claim_C4_witness :
    openai_extract_responses (.obj []) =
      some (.error ("Invalid response data: " ++ renderJson (.obj []))) ∧
    openai_extract_responses
      (.obj [("response", .obj [("output", .arr
          [.obj [("content", .arr
            [.obj [("type", .str "output_text"),
                   ("text", .str "hello")]])]])])]) =
      some (.ok ⟨"hello", [], none, none, none⟩) :=
  ⟨(claim_C4_empty_rejection _).1 rfl,
   (claim_C4_empty_rejection _).2 (("hello", []) : String × List ToolCall)
     rfl (by decide) rfl⟩

/-- Counterexample to claim C5: a reply whose top-level output array
carries an output_text part with non-empty text is rejected as invalid —
the extractor does not read the top-level output array. -/
theorem claim_C5_counterexample :
    openai_extract_responses
      (.obj [("output", .arr [.obj [("content", .arr
          [.obj [("type", .str "output_text"),
                 ("text", .str "hi")]])]])]) =
      some (.error ("Invalid response data: " ++ renderJson
        (.obj [("output", .arr [.obj [("content", .arr
          [.obj [("type", .str "output_text"),
                 ("text", .str "hi")]])]])]))) := rfl

/-- Claim C5 (amended): the extractor locates text and tool-call entries
by walking response.output[].content[] — the output array nested under
the top-level response key: whenever that walk completes without
panicking (every tool_code part that reaches the id-and-function branch
has name and args entries in its function Map) and yields non-empty
text, extraction succeeds and returns exactly the collected text and
tool calls. -/
theorem claim_C5_walk_response_output (data : Json)
    (p : String × List ToolCall) (h : collectOut data = some p)
    (ht : p.1 ≠ "") :
    openai_extract_responses data =
      some (.ok ⟨p.1, p.2,
           ((jGet data "id").asStr),
           ((jGet (jGet data "usage") "input_tokens").asU64),
           ((jGet (jGet data "usage") "output_tokens").asU64)⟩) := by
  have hbe : (p.1 == "") = false := beq_eq_false_iff_ne.mpr ht
  have hcn : ¬((p.1 == "" && p.2.isEmpty) = true) := by
    rw [hbe, Bool.false_and]; exact Bool.false_ne_true
  simp only [openai_extract_responses, h]
  rw [if_neg hcn]

/-- Witness for the amended claim C5 at a reply nested under the
response key. -/
theorem claim_C5_witness :
    openai_extract_responses
      (.obj [("response", .obj [("output", .arr [.obj [("content", .arr
          [.obj [("type", .str "output_text"),
                 ("text", .str "hi")]])]])])]) =
      some (.ok ⟨"hi", [], none, none, none⟩) :=
  claim_C5_walk_response_output _ (("hi", []) : String × List ToolCall)
    rfl (by decide)

end OpenAIResponses
